import Mathlib

/-!
Verification of the Game of Life engine in `src/game-of-life.py`
(`class GameOfLife`).

The engine state is the quadruple `(rows, cols, life_grid, current_step)`.
`life_grid` is a `rows x cols` numpy integer array; we represent the array
by its lookup function `Nat → Nat → Nat` (an array is its shape plus its
entries; the shape is carried by the `rows`/`cols` fields). The matplotlib
handles `fig`/`ax`/`im` carry no engine state and are omitted.

Python-level mutation is modelled by returning the updated state; the
operations that can raise a Python exception (`__init__` and `randomize`,
whose numpy calls validate their arguments, and `make_n_steps`, which the
specification expects to validate `n`) return `Except PyErr _`.
`get_grid`, which returns the internal numpy array object itself, is
additionally modelled in a small heap-with-references model (`RefModel`
below) where Python object identity, and hence mutable aliasing, is
observable.
-/

/-- Python-level exceptions raisable by the numpy calls inside the engine.
`valueError` models `ValueError`: numpy raises it for a negative dimension
in `np.zeros` and for a negative entry of the probability vector `p` in
`np.random.choice`. -/
inductive PyErr where
  | valueError : PyErr
  deriving DecidableEq

/-- State of a `GameOfLife` object as set up by `__init__` (lines 36-43):
`rows`, `cols`, the cell matrix `life_grid` (0 = dead, 1 = alive) and the
generation counter `current_step`. -/
@[ext]
structure GameOfLife where
  rows : Nat
  cols : Nat
  life_grid : Nat → Nat → Nat
  current_step : Nat

/-- `GameOfLife.__init__(rows, cols)` (lines 36-43): stores the dimensions,
allocates the all-zero `rows x cols` grid with `np.zeros`, and sets
`current_step = 0`. The constructor itself performs no validation;
`np.zeros` raises `ValueError` exactly when a requested dimension is
negative (a zero dimension is accepted and yields an empty array). -/
def GameOfLife.init (rows cols : Int) : Except PyErr GameOfLife :=
  if rows < 0 ∨ cols < 0 then .error .valueError
  else .ok { rows := rows.toNat, cols := cols.toNat,
             life_grid := fun _ _ => 0, current_step := 0 }

/-- `GameOfLife.randomize(density)` (lines 45-50): `np.random.choice([0, 1],
size=(rows, cols), p=[1-density, density])` draws every cell independently
from `[0, 1]`; the draws are modelled by the injected boolean source `rng`
(`rng r c = true` means the draw for cell `(r, c)` picked 1). numpy
validates the probability vector first and raises `ValueError` when an
entry of `p = [1-density, density]` is negative, i.e. exactly when
`density` lies outside `[0, 1]`; the exception propagates before
`self.life_grid` or `self.current_step` is assigned, so the object is
untouched on failure. On success the grid is replaced wholesale and
`current_step` is reset to 0. -/
def GameOfLife.randomize (s : GameOfLife) (density : ℚ) (rng : Nat → Nat → Bool) :
    Except PyErr GameOfLife :=
  if 1 - density < 0 ∨ density < 0 then .error .valueError
  else .ok { s with life_grid := fun r c => if rng r c then 1 else 0,
                    current_step := 0 }

/-- `GameOfLife.get_grid()` (lines 52-53): `return self.life_grid`. The
internal matrix itself is returned; see `RefModel` below for the object
identity this entails. -/
def GameOfLife.get_grid (s : GameOfLife) : Nat → Nat → Nat :=
  s.life_grid

/-- `GameOfLife.populate_grid(coords)` (lines 58-72): for each `(r, c)` in
`coords`, if `0 <= r < rows and 0 <= c < cols` then `life_grid[r][c] = 1`,
else the pair is skipped; finally `current_step = 0`. Coordinates are
Python ints, hence `Int × Int`. -/
def GameOfLife.populate_grid (s : GameOfLife) (coords : List (Int × Int)) : GameOfLife :=
  { s with
    life_grid :=
      coords.foldl
        (fun g p =>
          if 0 ≤ p.1 ∧ p.1 < (s.rows : Int) ∧ 0 ≤ p.2 ∧ p.2 < (s.cols : Int) then
            fun r c => if r = p.1.toNat ∧ c = p.2.toNat then 1 else g r c
          else g)
        s.life_grid,
    current_step := 0 }

/-- The neighbor-counting loops of `make_step` (lines 88-101): for the cell
`(rc, cc)`, iterate `r` and `c` over `[-1, 0, 1]`, skip `(0, 0)`, and add
`g[rn][cn]` whenever `rn = rc + r` and `cn = cc + c` satisfy
`0 <= rn < rows and 0 <= cn < cols`. -/
def countNeighbors (rows cols : Nat) (g : Nat → Nat → Nat) (rc cc : Nat) : Nat :=
  List.foldl
    (fun acc dr =>
      List.foldl
        (fun acc2 dc =>
          if dr = 0 ∧ dc = 0 then acc2
          else
            if 0 ≤ (rc : Int) + dr ∧ (rc : Int) + dr < (rows : Int) ∧
                0 ≤ (cc : Int) + dc ∧ (cc : Int) + dc < (cols : Int) then
              acc2 + g ((rc : Int) + dr).toNat ((cc : Int) + dc).toNat
            else acc2)
        acc ([-1, 0, 1] : List Int))
    0 ([-1, 0, 1] : List Int)

/-- `GameOfLife.make_step()` (lines 74-113): computes `neighbors[(rc, cc)]`
for every cell from the pre-step grid `g = self.life_grid`, then builds
`new_grid` (an `np.zeros` array of the same shape, so cells only exist for
`rc < rows`, `cc < cols`) by the rule: alive with 2 or 3 neighbors stays
alive, dead with exactly 3 neighbors becomes alive, every other cell is
dead (`new_grid` entries default to 0). Finally `self.life_grid = new_grid`
and `current_step` was incremented by 1 (line 87). -/
def GameOfLife.make_step (s : GameOfLife) : GameOfLife :=
  { s with
    life_grid := fun rc cc =>
      if rc < s.rows ∧ cc < s.cols then
        if s.life_grid rc cc = 1 ∧ countNeighbors s.rows s.cols s.life_grid rc cc ∈ [2, 3] then 1
        else if s.life_grid rc cc = 0 ∧ countNeighbors s.rows s.cols s.life_grid rc cc = 3 then 1
        else 0
      else 0,
    current_step := s.current_step + 1 }

/-- `GameOfLife.make_n_steps(n)` (lines 115-125): `for i in range(1, n + 1):
self.make_step()`. Python's `range(1, n + 1)` enumerates `1, ..., n` (empty
when `n <= 0`), and no statement in the body can raise, so the call always
returns normally. -/
def GameOfLife.make_n_steps (s : GameOfLife) (n : Int) : Except PyErr GameOfLife :=
  .ok ((List.range' 1 n.toNat).foldl (fun t _ => t.make_step) s)

/-! ### Specification-side vocabulary

The definitions below follow the words of the specification and of the
claims, to be compared with the code-side definitions above. -/

/-- The eight offsets to the surrounding positions of a cell, as named by
the specification (orthogonal and diagonal neighbors). -/
def neighborOffsets : List (Int × Int) :=
  [(-1, -1), (-1, 0), (-1, 1), (0, -1), (0, 1), (1, -1), (1, 0), (1, 1)]

/-- The surrounding positions of `(rc, cc)` that lie inside
`[0, rows) × [0, cols)` — the positions the specification says are counted
(out-of-bounds positions are absent, no wraparound). -/
def inBoundsNeighborOffsets (rows cols rc cc : Nat) : List (Int × Int) :=
  neighborOffsets.filter fun d =>
    decide (0 ≤ (rc : Int) + d.1 ∧ (rc : Int) + d.1 < (rows : Int) ∧
            0 ≤ (cc : Int) + d.2 ∧ (cc : Int) + d.2 < (cols : Int))

/-- The number of alive neighbors of `(rc, cc)` as the specification words
it: among the up to 8 surrounding positions, those inside the grid bounds
whose cell is alive. -/
def specAliveNeighbors (s : GameOfLife) (rc cc : Nat) : Nat :=
  (neighborOffsets.filter fun d =>
    decide (0 ≤ (rc : Int) + d.1 ∧ (rc : Int) + d.1 < (s.rows : Int) ∧
            0 ≤ (cc : Int) + d.2 ∧ (cc : Int) + d.2 < (s.cols : Int) ∧
            s.life_grid ((rc : Int) + d.1).toNat ((cc : Int) + d.2).toNat = 1)).length

/-- Every in-bounds cell holds 0 or 1 (the grid invariant of the
specification's data model). -/
def ValidCells (s : GameOfLife) : Prop :=
  ∀ r < s.rows, ∀ c < s.cols, s.life_grid r c = 0 ∨ s.life_grid r c = 1

/-! ### Analysis helpers for the neighbor count -/

/-- One summand of the neighbor-count loop: the contribution of offset
`(dr, dc)` at cell `(rc, cc)`. -/
def nTermB (rows cols : Nat) (g : Nat → Nat → Nat) (rc cc : Nat) (dr dc : Int) : Nat :=
  if 0 ≤ (rc : Int) + dr ∧ (rc : Int) + dr < (rows : Int) ∧
      0 ≤ (cc : Int) + dc ∧ (cc : Int) + dc < (cols : Int) then
    g ((rc : Int) + dr).toNat ((cc : Int) + dc).toNat
  else 0

/-- The contribution of offset `(dr, dc)` when only the lower bounds are
checked (used for cells not adjacent to the right or bottom edge, where the
upper-bound checks are vacuous). -/
def nTermL (g : Nat → Nat → Nat) (rc cc : Nat) (dr dc : Int) : Nat :=
  if 0 ≤ (rc : Int) + dr ∧ 0 ≤ (cc : Int) + dc then
    g ((rc : Int) + dr).toNat ((cc : Int) + dc).toNat
  else 0

/-- Neighbor count with only the lower bound checks; it does not mention
`rows`/`cols` and hence evaluates on concrete cells and grids. -/
def countLow (g : Nat → Nat → Nat) (rc cc : Nat) : Nat :=
  nTermL g rc cc (-1) (-1) + nTermL g rc cc (-1) 0 + nTermL g rc cc (-1) 1 +
  nTermL g rc cc 0 (-1) + nTermL g rc cc 0 1 +
  nTermL g rc cc 1 (-1) + nTermL g rc cc 1 0 + nTermL g rc cc 1 1

/-- One summand of the specification-side alive-neighbor count: 1 when the
offset position is in bounds and alive, 0 otherwise. -/
def sTerm (s : GameOfLife) (rc cc : Nat) (dr dc : Int) : Nat :=
  if 0 ≤ (rc : Int) + dr ∧ (rc : Int) + dr < (s.rows : Int) ∧
      0 ≤ (cc : Int) + dc ∧ (cc : Int) + dc < (s.cols : Int) ∧
      s.life_grid ((rc : Int) + dr).toNat ((cc : Int) + dc).toNat = 1 then 1 else 0

/-- The grid whose alive cells are exactly the pairs of `L`. -/
def patAt (L : List (Nat × Nat)) : Nat → Nat → Nat :=
  fun r c => if (r, c) ∈ L then 1 else 0

/-- The 5-cell glider of the specification, as coordinates for
`populate_grid`. -/
def gliderCoords : List (Int × Int) := [(1, 0), (2, 1), (0, 2), (1, 2), (2, 2)]

/-- The glider's alive cells at generation 0. -/
def gliderP0 : List (Nat × Nat) := [(1, 0), (2, 1), (0, 2), (1, 2), (2, 2)]

/-- The glider's alive cells after one step. -/
def gliderP1 : List (Nat × Nat) := [(0, 1), (1, 2), (1, 3), (2, 1), (2, 2)]

/-- The glider's alive cells after two steps. -/
def gliderP2 : List (Nat × Nat) := [(0, 2), (1, 3), (2, 1), (2, 2), (2, 3)]

/-- The glider's alive cells after three steps. -/
def gliderP3 : List (Nat × Nat) := [(1, 1), (1, 3), (2, 2), (2, 3), (3, 2)]

/-- The glider's alive cells after four steps: the initial shape translated
by `(+1, +1)`. -/
def gliderP4 : List (Nat × Nat) := [(2, 1), (3, 2), (1, 3), (2, 3), (3, 3)]

/-- A sample 3×3 all-dead engine state used to instantiate theorems. -/
def sample33 : GameOfLife := ⟨3, 3, fun _ _ => 0, 0⟩

/-- The state `GameOfLife(0, 3)` actually constructs: zero rows, an empty
cell matrix, generation 0. -/
def grid03 : GameOfLife := ⟨0, 3, fun _ _ => 0, 0⟩

/-! ### Reference model for `get_grid`

numpy arrays are mutable Python objects. To make object identity (and thus
aliasing) observable, a heap maps an address to the array stored there; the
engine object holds the address of its `life_grid` array, and `get_grid`
returns that address, mirroring `return self.life_grid` returning the
object reference. -/

/-- A heap of numpy arrays: address ↦ row ↦ column ↦ entry. -/
def RefHeap : Type := Nat → Nat → Nat → Nat

/-- An engine object whose `life_grid` field is the heap address of its
cell matrix. -/
structure GameRef where
  rows : Nat
  cols : Nat
  life_grid : Nat
  current_step : Nat

/-- `get_grid` in the reference model: `return self.life_grid` hands the
caller the very reference stored in the object. -/
def GameRef.get_grid (s : GameRef) : Nat := s.life_grid

/-- An assignment `arr[r][c] = v` performed through the array reference
`addr` (as an external caller would do to the matrix `get_grid` returned). -/
def heapWrite (h : RefHeap) (addr r c v : Nat) : RefHeap :=
  fun a r' c' => if a = addr ∧ r' = r ∧ c' = c then v else h a r' c'

/-- The engine's view of its own cell `(r, c)`: what every subsequent
operation reads through `self.life_grid`. -/
def readCell (h : RefHeap) (s : GameRef) (r c : Nat) : Nat :=
  h s.life_grid r c

/-- A concrete heap holding one all-dead 3×3 array at address 0. -/
def heap0 : RefHeap := fun _ _ _ => 0

/-- A concrete engine object over `heap0`. -/
def gameRef0 : GameRef := ⟨3, 3, 0, 0⟩


/-! ### Basic lemmas -/

/-- Threading an accumulator through a guarded addition equals adding the
guarded summand. -/
theorem ite_acc_add (P : Prop) [Decidable P] (a x : Nat) :
    (if P then a + x else a) = a + if P then x else 0 := by
  split <;> simp

/-- The two neighbor-count loops of `make_step`, unrolled: the sum of the
eight offset contributions. -/
theorem countNeighbors_unfold (rows cols : Nat) (g : Nat → Nat → Nat) (rc cc : Nat) :
    countNeighbors rows cols g rc cc =
      nTermB rows cols g rc cc (-1) (-1) + nTermB rows cols g rc cc (-1) 0 +
      nTermB rows cols g rc cc (-1) 1 + nTermB rows cols g rc cc 0 (-1) +
      nTermB rows cols g rc cc 0 1 + nTermB rows cols g rc cc 1 (-1) +
      nTermB rows cols g rc cc 1 0 + nTermB rows cols g rc cc 1 1 := by
  norm_num [countNeighbors, List.foldl_cons, List.foldl_nil, nTermB, ite_acc_add,
    Nat.add_assoc]

/-- Away from the right and bottom edges the upper-bound checks of a
neighbor contribution are vacuous. -/
theorem nTermB_eq_low (rows cols : Nat) (g : Nat → Nat → Nat) (rc cc : Nat) (dr dc : Int)
    (h1 : (rc : Int) + dr < (rows : Int)) (h2 : (cc : Int) + dc < (cols : Int)) :
    nTermB rows cols g rc cc dr dc = nTermL g rc cc dr dc := by
  unfold nTermB nTermL
  split_ifs with hA hB hB
  · rfl
  · omega
  · omega
  · rfl

/-- For a cell with `rc + 1 < rows` and `cc + 1 < cols` the bounded
neighbor count coincides with the count that checks lower bounds only. -/
theorem countNeighbors_interior (rows cols : Nat) (g : Nat → Nat → Nat) (rc cc : Nat)
    (h1 : rc + 1 < rows) (h2 : cc + 1 < cols) :
    countNeighbors rows cols g rc cc = countLow g rc cc := by
  rw [countNeighbors_unfold, countLow,
    nTermB_eq_low rows cols g rc cc (-1) (-1) (by omega) (by omega),
    nTermB_eq_low rows cols g rc cc (-1) 0 (by omega) (by omega),
    nTermB_eq_low rows cols g rc cc (-1) 1 (by omega) (by omega),
    nTermB_eq_low rows cols g rc cc 0 (-1) (by omega) (by omega),
    nTermB_eq_low rows cols g rc cc 0 1 (by omega) (by omega),
    nTermB_eq_low rows cols g rc cc 1 (-1) (by omega) (by omega),
    nTermB_eq_low rows cols g rc cc 1 0 (by omega) (by omega),
    nTermB_eq_low rows cols g rc cc 1 1 (by omega) (by omega)]

/-- A neighbor contribution vanishes when the grid is dead on every cell
with a coordinate at least 4 and the cell has a coordinate at least 5. -/
theorem nTermB_far (rows cols : Nat) (g : Nat → Nat → Nat) (rc cc : Nat) (dr dc : Int)
    (hg : ∀ a b, 4 ≤ a ∨ 4 ≤ b → g a b = 0) (hrc : 5 ≤ rc ∨ 5 ≤ cc)
    (hdr : -1 ≤ dr) (hdc : -1 ≤ dc) :
    nTermB rows cols g rc cc dr dc = 0 := by
  unfold nTermB
  split_ifs with hA
  · exact hg _ _ (by omega)
  · rfl

/-- The bounded neighbor count vanishes far away from a pattern confined to
coordinates at most 3. -/
theorem countNeighbors_far (rows cols : Nat) (g : Nat → Nat → Nat) (rc cc : Nat)
    (hg : ∀ a b, 4 ≤ a ∨ 4 ≤ b → g a b = 0) (hrc : 5 ≤ rc ∨ 5 ≤ cc) :
    countNeighbors rows cols g rc cc = 0 := by
  rw [countNeighbors_unfold,
    nTermB_far rows cols g rc cc (-1) (-1) hg hrc (by norm_num) (by norm_num),
    nTermB_far rows cols g rc cc (-1) 0 hg hrc (by norm_num) (by norm_num),
    nTermB_far rows cols g rc cc (-1) 1 hg hrc (by norm_num) (by norm_num),
    nTermB_far rows cols g rc cc 0 (-1) hg hrc (by norm_num) (by norm_num),
    nTermB_far rows cols g rc cc 0 1 hg hrc (by norm_num) (by norm_num),
    nTermB_far rows cols g rc cc 1 (-1) hg hrc (by norm_num) (by norm_num),
    nTermB_far rows cols g rc cc 1 0 hg hrc (by norm_num) (by norm_num),
    nTermB_far rows cols g rc cc 1 1 hg hrc (by norm_num) (by norm_num)]

/-- A pattern grid confined to coordinates at most 3 is dead on every cell
with a coordinate at least 4. -/
theorem patAt_far (L : List (Nat × Nat)) (hL : ∀ p ∈ L, p.1 ≤ 3 ∧ p.2 ≤ 3)
    (a b : Nat) (h : 4 ≤ a ∨ 4 ≤ b) : patAt L a b = 0 := by
  unfold patAt
  rw [if_neg]
  intro hm
  obtain ⟨h1, h2⟩ := hL (a, b) hm
  simp only at h1 h2
  omega

/-- The cell values of `make_step`, read back pointwise. -/
theorem make_step_cell (s : GameOfLife) (rc cc : Nat) :
    (s.make_step).life_grid rc cc =
      if rc < s.rows ∧ cc < s.cols then
        if s.life_grid rc cc = 1 ∧ countNeighbors s.rows s.cols s.life_grid rc cc ∈ [2, 3] then 1
        else if s.life_grid rc cc = 0 ∧ countNeighbors s.rows s.cols s.life_grid rc cc = 3 then 1
        else 0
      else 0 := rfl

/-- `make_step` keeps the dimensions and increments the counter. -/
theorem make_step_frame (s : GameOfLife) :
    (s.make_step).rows = s.rows ∧ (s.make_step).cols = s.cols ∧
    (s.make_step).current_step = s.current_step + 1 :=
  ⟨rfl, rfl, rfl⟩

/-- Pointwise value of the seeding loop of `populate_grid`: a cell is set
to 1 exactly when some coordinate pair of the list is in range and denotes
it, and is otherwise left as it was. -/
theorem populate_foldl_value (rows cols : Nat) (l : List (Int × Int)) :
    ∀ (g : Nat → Nat → Nat) (r c : Nat),
      (l.foldl
        (fun g p =>
          if 0 ≤ p.1 ∧ p.1 < (rows : Int) ∧ 0 ≤ p.2 ∧ p.2 < (cols : Int) then
            fun r c => if r = p.1.toNat ∧ c = p.2.toNat then 1 else g r c
          else g)
        g) r c =
      if ∃ p ∈ l, (0 ≤ p.1 ∧ p.1 < (rows : Int) ∧ 0 ≤ p.2 ∧ p.2 < (cols : Int)) ∧
          r = p.1.toNat ∧ c = p.2.toNat then 1
      else g r c := by
  induction l with
  | nil => intro g r c; simp
  | cons p t ih =>
      intro g r c
      rw [List.foldl_cons]
      by_cases hp : 0 ≤ p.1 ∧ p.1 < (rows : Int) ∧ 0 ≤ p.2 ∧ p.2 < (cols : Int)
      · rw [if_pos hp, ih]
        by_cases ht : ∃ q ∈ t, (0 ≤ q.1 ∧ q.1 < (rows : Int) ∧ 0 ≤ q.2 ∧ q.2 < (cols : Int)) ∧
            r = q.1.toNat ∧ c = q.2.toNat
        · obtain ⟨q, hq, hD⟩ := ht
          rw [if_pos ⟨q, hq, hD⟩, if_pos ⟨q, List.mem_cons_of_mem _ hq, hD⟩]
        · simp only [if_neg ht]
          by_cases hhit : r = p.1.toNat ∧ c = p.2.toNat
          · rw [if_pos hhit, if_pos ⟨p, List.mem_cons_self p t, hp, hhit⟩]
          · rw [if_neg hhit, if_neg ?hno]
            case hno =>
              rintro ⟨q, hq, hD⟩
              rcases List.mem_cons.mp hq with rfl | hq'
              · exact hhit hD.2
              · exact ht ⟨q, hq', hD⟩
      · rw [if_neg hp, ih]
        refine if_congr ?_ rfl rfl
        constructor
        · rintro ⟨q, hq, hD⟩
          exact ⟨q, List.mem_cons_of_mem _ hq, hD⟩
        · rintro ⟨q, hq, hD⟩
          rcases List.mem_cons.mp hq with rfl | hq'
          · exact absurd hD.1 hp
          · exact ⟨q, hq', hD⟩

/-- Pointwise value of `populate_grid`. -/
theorem populate_value (s : GameOfLife) (coords : List (Int × Int)) (r c : Nat) :
    (s.populate_grid coords).life_grid r c =
      if ∃ p ∈ coords, (0 ≤ p.1 ∧ p.1 < (s.rows : Int) ∧ 0 ≤ p.2 ∧ p.2 < (s.cols : Int)) ∧
          r = p.1.toNat ∧ c = p.2.toNat then 1
      else s.life_grid r c :=
  populate_foldl_value s.rows s.cols coords s.life_grid r c

/-- `populate_grid` keeps the dimensions and resets the counter. -/
theorem populate_frame (s : GameOfLife) (coords : List (Int × Int)) :
    (s.populate_grid coords).rows = s.rows ∧ (s.populate_grid coords).cols = s.cols ∧
    (s.populate_grid coords).current_step = 0 :=
  ⟨rfl, rfl, rfl⟩

/-- Folding `make_step` over a list it ignores is iteration. -/
theorem foldl_const_make_step (l : List Nat) :
    ∀ s : GameOfLife, l.foldl (fun t _ => t.make_step) s = GameOfLife.make_step^[l.length] s := by
  induction l with
  | nil => intro s; rfl
  | cons a t ih =>
      intro s
      rw [List.foldl_cons, List.length_cons, Function.iterate_succ_apply, ih]

/-- The specification-side alive-neighbor count, unrolled over the eight
offsets. -/
theorem specAliveNeighbors_unfold (s : GameOfLife) (rc cc : Nat) :
    specAliveNeighbors s rc cc =
      sTerm s rc cc (-1) (-1) + sTerm s rc cc (-1) 0 + sTerm s rc cc (-1) 1 +
      sTerm s rc cc 0 (-1) + sTerm s rc cc 0 1 + sTerm s rc cc 1 (-1) +
      sTerm s rc cc 1 0 + sTerm s rc cc 1 1 := by
  simp only [specAliveNeighbors, neighborOffsets, ← List.countP_eq_length_filter,
    List.countP_cons, List.countP_nil, decide_eq_true_eq, sTerm]
  ring

/-- On a grid whose cells are all 0 or 1, one code-side neighbor summand
equals the corresponding specification-side summand. -/
theorem nTermB_eq_sTerm (s : GameOfLife) (hv : ValidCells s) (rc cc : Nat) (dr dc : Int) :
    nTermB s.rows s.cols s.life_grid rc cc dr dc = sTerm s rc cc dr dc := by
  unfold nTermB sTerm
  split_ifs with hA hB hB
  · exact hB.2.2.2.2
  · have hin : ((rc : Int) + dr).toNat < s.rows := by omega
    have hin2 : ((cc : Int) + dc).toNat < s.cols := by omega
    rcases hv _ hin _ hin2 with h0 | h1
    · exact h0
    · exact absurd ⟨hA.1, hA.2.1, hA.2.2.1, hA.2.2.2, h1⟩ hB
  · exact absurd ⟨hB.1, hB.2.1, hB.2.2.1, hB.2.2.2.1⟩ hA
  · rfl

/-- The neighbor count computed by the `make_step` loops equals the count
described by the specification. -/
theorem countNeighbors_eq_spec (s : GameOfLife) (hv : ValidCells s) (rc cc : Nat) :
    countNeighbors s.rows s.cols s.life_grid rc cc = specAliveNeighbors s rc cc := by
  rw [countNeighbors_unfold, specAliveNeighbors_unfold,
    nTermB_eq_sTerm s hv rc cc (-1) (-1), nTermB_eq_sTerm s hv rc cc (-1) 0,
    nTermB_eq_sTerm s hv rc cc (-1) 1, nTermB_eq_sTerm s hv rc cc 0 (-1),
    nTermB_eq_sTerm s hv rc cc 0 1, nTermB_eq_sTerm s hv rc cc 1 (-1),
    nTermB_eq_sTerm s hv rc cc 1 0, nTermB_eq_sTerm s hv rc cc 1 1]

/-- At the corner `(0, 0)` at most three surrounding positions are inside
the bounds, whatever the dimensions. -/
theorem corner_has_at_most_three_positions (rows cols : Nat) :
    (inBoundsNeighborOffsets rows cols 0 0).length ≤ 3 := by
  unfold inBoundsNeighborOffsets neighborOffsets
  by_cases h1 : (0 : Int) < (rows : Int) <;> by_cases h2 : (1 : Int) < (rows : Int) <;>
    by_cases h3 : (0 : Int) < (cols : Int) <;> by_cases h4 : (1 : Int) < (cols : Int) <;>
    norm_num [List.filter, h1, h2, h3, h4]

/-- One `make_step` takes the glider from phase 0 to phase 1, pointwise, on
any grid of dimensions at least 6×6. -/
theorem glider_step_01 (rows cols : Nat) (hR : 6 ≤ rows) (hC : 6 ≤ cols) (s : GameOfLife)
    (hrows : s.rows = rows) (hcols : s.cols = cols) (hg : s.life_grid = patAt gliderP0) :
    ∀ r c, (s.make_step).life_grid r c = patAt gliderP1 r c := by
  intro r c
  rw [make_step_cell, hrows, hcols, hg]
  by_cases hb : r < rows ∧ c < cols
  · rw [if_pos hb]
    by_cases hsm : r ≤ 4 ∧ c ≤ 4
    · rw [countNeighbors_interior rows cols (patAt gliderP0) r c (by omega) (by omega)]
      obtain ⟨hr4, hc4⟩ := hsm
      interval_cases r <;> interval_cases c <;> decide
    · have hfar : 5 ≤ r ∨ 5 ≤ c := by omega
      rw [countNeighbors_far rows cols (patAt gliderP0) r c
            (patAt_far gliderP0 (by decide)) hfar,
          patAt_far gliderP0 (by decide) r c (by omega),
          patAt_far gliderP1 (by decide) r c (by omega)]
      decide
  · rw [if_neg hb, patAt_far gliderP1 (by decide) r c (by omega)]

/-- One `make_step` takes the glider from phase 1 to phase 2. -/
theorem glider_step_12 (rows cols : Nat) (hR : 6 ≤ rows) (hC : 6 ≤ cols) (s : GameOfLife)
    (hrows : s.rows = rows) (hcols : s.cols = cols) (hg : s.life_grid = patAt gliderP1) :
    ∀ r c, (s.make_step).life_grid r c = patAt gliderP2 r c := by
  intro r c
  rw [make_step_cell, hrows, hcols, hg]
  by_cases hb : r < rows ∧ c < cols
  · rw [if_pos hb]
    by_cases hsm : r ≤ 4 ∧ c ≤ 4
    · rw [countNeighbors_interior rows cols (patAt gliderP1) r c (by omega) (by omega)]
      obtain ⟨hr4, hc4⟩ := hsm
      interval_cases r <;> interval_cases c <;> decide
    · have hfar : 5 ≤ r ∨ 5 ≤ c := by omega
      rw [countNeighbors_far rows cols (patAt gliderP1) r c
            (patAt_far gliderP1 (by decide)) hfar,
          patAt_far gliderP1 (by decide) r c (by omega),
          patAt_far gliderP2 (by decide) r c (by omega)]
      decide
  · rw [if_neg hb, patAt_far gliderP2 (by decide) r c (by omega)]

/-- One `make_step` takes the glider from phase 2 to phase 3. -/
theorem glider_step_23 (rows cols : Nat) (hR : 6 ≤ rows) (hC : 6 ≤ cols) (s : GameOfLife)
    (hrows : s.rows = rows) (hcols : s.cols = cols) (hg : s.life_grid = patAt gliderP2) :
    ∀ r c, (s.make_step).life_grid r c = patAt gliderP3 r c := by
  intro r c
  rw [make_step_cell, hrows, hcols, hg]
  by_cases hb : r < rows ∧ c < cols
  · rw [if_pos hb]
    by_cases hsm : r ≤ 4 ∧ c ≤ 4
    · rw [countNeighbors_interior rows cols (patAt gliderP2) r c (by omega) (by omega)]
      obtain ⟨hr4, hc4⟩ := hsm
      interval_cases r <;> interval_cases c <;> decide
    · have hfar : 5 ≤ r ∨ 5 ≤ c := by omega
      rw [countNeighbors_far rows cols (patAt gliderP2) r c
            (patAt_far gliderP2 (by decide)) hfar,
          patAt_far gliderP2 (by decide) r c (by omega),
          patAt_far gliderP3 (by decide) r c (by omega)]
      decide
  · rw [if_neg hb, patAt_far gliderP3 (by decide) r c (by omega)]

/-- One `make_step` takes the glider from phase 3 to phase 4, the original
shape translated by `(+1, +1)`. -/
theorem glider_step_34 (rows cols : Nat) (hR : 6 ≤ rows) (hC : 6 ≤ cols) (s : GameOfLife)
    (hrows : s.rows = rows) (hcols : s.cols = cols) (hg : s.life_grid = patAt gliderP3) :
    ∀ r c, (s.make_step).life_grid r c = patAt gliderP4 r c := by
  intro r c
  rw [make_step_cell, hrows, hcols, hg]
  by_cases hb : r < rows ∧ c < cols
  · rw [if_pos hb]
    by_cases hsm : r ≤ 4 ∧ c ≤ 4
    · rw [countNeighbors_interior rows cols (patAt gliderP3) r c (by omega) (by omega)]
      obtain ⟨hr4, hc4⟩ := hsm
      interval_cases r <;> interval_cases c <;> decide
    · have hfar : 5 ≤ r ∨ 5 ≤ c := by omega
      rw [countNeighbors_far rows cols (patAt gliderP3) r c
            (patAt_far gliderP3 (by decide)) hfar,
          patAt_far gliderP3 (by decide) r c (by omega),
          patAt_far gliderP4 (by decide) r c (by omega)]
      decide
  · rw [if_neg hb, patAt_far gliderP4 (by decide) r c (by omega)]

/-- Seeding the glider on an all-dead grid of dimensions at least 6×6
produces exactly the phase-0 pattern. -/
theorem glider_initial (rows cols : Nat) (hR : 6 ≤ rows) (hC : 6 ≤ cols) :
    (GameOfLife.populate_grid ⟨rows, cols, fun _ _ => 0, 0⟩ gliderCoords).life_grid =
      patAt gliderP0 := by
  funext r c
  rw [populate_value, patAt]
  refine if_congr ?_ rfl rfl
  simp only [gliderCoords, gliderP0, List.mem_cons, List.not_mem_nil, or_false,
    exists_eq_or_imp, Prod.mk.injEq]
  norm_num
  omega

/-- `populate_grid` keeps the row count (projection, for rewriting). -/
theorem populate_rows (s : GameOfLife) (coords : List (Int × Int)) :
    (s.populate_grid coords).rows = s.rows := rfl

/-- `populate_grid` keeps the column count (projection, for rewriting). -/
theorem populate_cols (s : GameOfLife) (coords : List (Int × Int)) :
    (s.populate_grid coords).cols = s.cols := rfl

/-! ### The claims -/

/-- C1: `make_step` computes each cell's next state from the pre-step grid
only; the new value of an in-bounds cell is alive exactly when the cell was
alive with 2 or 3 alive in-bounds neighbors, or dead with exactly 3 alive
in-bounds neighbors, where the count ranges over the surrounding positions
inside `[0, rows) × [0, cols)` (no wraparound); and a corner cell has at
most 3 counted neighbor positions. The right-hand side of the equivalence
speaks only about the pre-step state `s`, and `make_step` replaces the
whole grid with the computed next state, so the update is simultaneous. -/
theorem C1_make_step_rule (s : GameOfLife) (hv : ValidCells s) (r c : Nat)
    (hr : r < s.rows) (hc : c < s.cols) :
    ((s.make_step).life_grid r c = 1 ↔
      (s.life_grid r c = 1 ∧ (specAliveNeighbors s r c = 2 ∨ specAliveNeighbors s r c = 3)) ∨
      (s.life_grid r c = 0 ∧ specAliveNeighbors s r c = 3)) ∧
    (inBoundsNeighborOffsets s.rows s.cols 0 0).length ≤ 3 := by
  refine ⟨?_, corner_has_at_most_three_positions s.rows s.cols⟩
  rw [make_step_cell, if_pos ⟨hr, hc⟩, countNeighbors_eq_spec s hv r c]
  constructor
  · intro h
    split_ifs at h with h1 h2
    · exact Or.inl ⟨h1.1, by simpa using h1.2⟩
    · exact Or.inr h2
  · intro h
    rcases h with ⟨h1, h2⟩ | ⟨h1, h2⟩
    · rw [if_pos ⟨h1, by simpa using h2⟩]
    · rw [if_neg, if_pos ⟨h1, h2⟩]
      rintro ⟨hcell, -⟩
      rw [h1] at hcell
      exact absurd hcell (by norm_num)

/-- Witness for C1 at the all-dead 3×3 grid and cell (0, 0). -/
theorem C1_make_step_rule_witness :
    ValidCells sample33 ∧ (0 < sample33.rows ∧ 0 < sample33.cols) ∧
    (((sample33.make_step).life_grid 0 0 = 1 ↔
      (sample33.life_grid 0 0 = 1 ∧ (specAliveNeighbors sample33 0 0 = 2 ∨
        specAliveNeighbors sample33 0 0 = 3)) ∨
      (sample33.life_grid 0 0 = 0 ∧ specAliveNeighbors sample33 0 0 = 3)) ∧
    (inBoundsNeighborOffsets sample33.rows sample33.cols 0 0).length ≤ 3) :=
  ⟨fun _ _ _ _ => Or.inl rfl, ⟨by decide, by decide⟩,
    C1_make_step_rule sample33 (fun _ _ _ _ => Or.inl rfl) 0 0 (by decide) (by decide)⟩

/-- C2 counterexample: `get_grid` does not return a copy. Writing 1 into
cell (0, 0) of the matrix returned by `get_grid` changes what the engine
itself subsequently reads at (0, 0) from 0 to 1, so mutating the returned
matrix does not leave the engine's internal cells unchanged. -/
theorem C2_get_grid_alias_cex :
    readCell (heapWrite heap0 gameRef0.get_grid 0 0 1) gameRef0 0 0 = 1 ∧
    readCell heap0 gameRef0 0 0 = 0 :=
  ⟨rfl, rfl⟩

/-- C2 amended: `get_grid` returns the internal cell matrix itself (the
very reference the engine holds), so an external write through the
returned matrix is visible to every subsequent read the engine makes. -/
theorem C2_get_grid_alias (s : GameRef) (h : RefHeap) (r c v : Nat) :
    s.get_grid = s.life_grid ∧
    readCell (heapWrite h s.get_grid r c v) s r c = v := by
  refine ⟨rfl, ?_⟩
  unfold readCell heapWrite GameRef.get_grid
  rw [if_pos ⟨rfl, rfl, rfl⟩]

/-- Witness for C2 (amended) at a concrete heap, engine and write. -/
theorem C2_get_grid_alias_witness :
    gameRef0.get_grid = gameRef0.life_grid ∧
    readCell (heapWrite heap0 gameRef0.get_grid 1 2 1) gameRef0 1 2 = 1 :=
  C2_get_grid_alias gameRef0 heap0 1 2 1

/-- C3: for `n ≥ 0`, `make_n_steps n` returns exactly the state obtained by
`n` sequential `make_step` calls (same grid and same generation counter),
and `make_n_steps 0` is a no-op. -/
theorem C3_make_n_steps_iterates (s : GameOfLife) (n : Int) (h : 0 ≤ n) :
    s.make_n_steps n = Except.ok (GameOfLife.make_step^[n.toNat] s) ∧
    s.make_n_steps 0 = Except.ok s := by
  constructor
  · unfold GameOfLife.make_n_steps
    rw [foldl_const_make_step, List.length_range']
  · rfl

/-- Witness for C3 at the all-dead 3×3 grid and `n = 2`. -/
theorem C3_make_n_steps_iterates_witness :
    (0 : Int) ≤ 2 ∧
    (sample33.make_n_steps 2 = Except.ok (GameOfLife.make_step^[(2 : Int).toNat] sample33) ∧
      sample33.make_n_steps 0 = Except.ok sample33) :=
  ⟨by decide, C3_make_n_steps_iterates sample33 2 (by decide)⟩

/-- C4: `populate_grid` sets alive exactly the cells denoted by an in-range
pair of the list (out-of-range pairs are silently ignored; the operation is
total, so no error is raised), never clears a previously-alive cell, and a
call whose pairs are all out of range leaves the cell matrix unchanged. -/
theorem C4_populate_additive (s : GameOfLife) (coords : List (Int × Int)) (r c : Nat) :
    ((s.populate_grid coords).life_grid r c = 1 ↔
      s.life_grid r c = 1 ∨
        ∃ p ∈ coords, (0 ≤ p.1 ∧ p.1 < (s.rows : Int) ∧ 0 ≤ p.2 ∧ p.2 < (s.cols : Int)) ∧
          r = p.1.toNat ∧ c = p.2.toNat) ∧
    (s.life_grid r c = 1 → (s.populate_grid coords).life_grid r c = 1) ∧
    ((∀ p ∈ coords, ¬(0 ≤ p.1 ∧ p.1 < (s.rows : Int) ∧ 0 ≤ p.2 ∧ p.2 < (s.cols : Int))) →
      (s.populate_grid coords).life_grid = s.life_grid) := by
  refine ⟨?_, ?_, ?_⟩
  · rw [populate_value]
    by_cases h : ∃ p ∈ coords,
        (0 ≤ p.1 ∧ p.1 < (s.rows : Int) ∧ 0 ≤ p.2 ∧ p.2 < (s.cols : Int)) ∧
        r = p.1.toNat ∧ c = p.2.toNat
    · rw [if_pos h]
      exact ⟨fun _ => Or.inr h, fun _ => rfl⟩
    · rw [if_neg h]
      constructor
      · exact fun hh => Or.inl hh
      · rintro (hh | hh)
        · exact hh
        · exact absurd hh h
  · intro h1
    rw [populate_value]
    split_ifs with h
    · rfl
    · exact h1
  · intro hall
    funext a b
    rw [populate_value, if_neg]
    rintro ⟨p, hp, hbounds, -⟩
    exact hall p hp hbounds

/-- Witness for C4: `populate_grid [(5, 5)]` on a 3×3 grid leaves the cell
matrix unchanged. -/
theorem C4_populate_additive_witness :
    (sample33.populate_grid [((5 : Int), (5 : Int))]).life_grid = sample33.life_grid :=
  (C4_populate_additive sample33 [((5 : Int), (5 : Int))] 0 0).2.2 (by decide)

/-- C5 counterexample: construction with `rows = 0 <= 0` does not fail at
all — `GameOfLife(0, 3)` succeeds and returns an object with an empty cell
matrix, so non-positive dimensions are not rejected with
`InvalidDimension`. -/
theorem C5_init_no_validation_cex :
    GameOfLife.init 0 3 = Except.ok grid03 ∧
    GameOfLife.init 0 3 ≠ Except.error PyErr.valueError := by
  refine ⟨rfl, ?_⟩
  intro h
  rw [show GameOfLife.init 0 3 = Except.ok grid03 from rfl] at h
  exact Except.noConfusion h

/-- C5 amended: the constructor validates nothing itself; it fails (with
numpy's `ValueError`, the only dimension error in the code) exactly when a
dimension is negative, a zero dimension succeeds with an empty grid, and
for `rows, cols > 0` it succeeds with an all-dead `rows × cols` grid and
generation counter 0. -/
theorem C5_init_behavior :
    (∀ rows cols : Int, (rows < 0 ∨ cols < 0) →
      GameOfLife.init rows cols = Except.error PyErr.valueError) ∧
    (∀ rows cols : Int, 0 < rows → 0 < cols →
      GameOfLife.init rows cols =
        Except.ok ⟨rows.toNat, cols.toNat, fun _ _ => 0, 0⟩) := by
  constructor
  · intro rows cols h
    unfold GameOfLife.init
    rw [if_pos h]
  · intro rows cols h1 h2
    unfold GameOfLife.init
    rw [if_neg (by omega)]

/-- Witness for C5: `init (-1) 3` fails with `ValueError`; `init 2 2`
succeeds with an all-dead grid and generation 0. -/
theorem C5_init_behavior_witness :
    ((-1 : Int) < 0 ∨ (3 : Int) < 0) ∧
    GameOfLife.init (-1) 3 = Except.error PyErr.valueError ∧
    GameOfLife.init 2 2 = Except.ok ⟨2, 2, fun _ _ => 0, 0⟩ :=
  ⟨Or.inl (by decide), C5_init_behavior.1 (-1) 3 (Or.inl (by decide)),
    C5_init_behavior.2 2 2 (by decide) (by decide)⟩

/-- C6 counterexample: `make_n_steps (-1)` does not fail with any error —
the loop `for i in range(1, n + 1)` is simply empty, the call returns
normally and the state (cells and generation counter) is unchanged. -/
theorem C6_make_n_steps_negative_cex :
    sample33.make_n_steps (-1) = Except.ok sample33 ∧
    sample33.make_n_steps (-1) ≠ Except.error PyErr.valueError := by
  refine ⟨rfl, ?_⟩
  intro h
  simp [GameOfLife.make_n_steps] at h

/-- C6 amended: for every negative `n`, `make_n_steps n` raises no error
and is a silent no-op: it returns with the cell matrix and the generation
counter exactly as they were. -/
theorem C6_make_n_steps_negative_noop (s : GameOfLife) (n : Int) (hn : n < 0) :
    s.make_n_steps n = Except.ok s := by
  unfold GameOfLife.make_n_steps
  rw [show n.toNat = 0 by omega]
  rfl

/-- Witness for C6 at `n = -2`. -/
theorem C6_make_n_steps_negative_noop_witness :
    (-2 : Int) < 0 ∧ sample33.make_n_steps (-2) = Except.ok sample33 :=
  ⟨by decide, C6_make_n_steps_negative_noop sample33 (-2) (by decide)⟩

/-- C7: `randomize` with a density outside `[0, 1]` fails (numpy rejects
the probability vector before `self.life_grid` or `self.current_step` is
assigned, so the engine state is exactly as before the call) and returns no
new state. -/
theorem C7_randomize_invalid_density (s : GameOfLife) (d : ℚ) (rng : Nat → Nat → Bool)
    (h : d < 0 ∨ 1 < d) :
    s.randomize d rng = Except.error PyErr.valueError ∧
    ∀ t, s.randomize d rng ≠ Except.ok t := by
  have hc : 1 - d < 0 ∨ d < 0 := by
    rcases h with h | h
    · exact Or.inr h
    · exact Or.inl (by linarith)
  constructor
  · unfold GameOfLife.randomize
    rw [if_pos hc]
  · intro t ht
    unfold GameOfLife.randomize at ht
    rw [if_pos hc] at ht
    exact Except.noConfusion ht

/-- Witness for C7 at `density = 2`, a value outside `[0, 1]`. -/
theorem C7_randomize_invalid_density_witness :
    ((2 : ℚ) < 0 ∨ 1 < (2 : ℚ)) ∧
    sample33.randomize 2 (fun _ _ => false) = Except.error PyErr.valueError :=
  ⟨Or.inr (by decide),
    (C7_randomize_invalid_density sample33 2 (fun _ _ => false) (Or.inr (by decide))).1⟩

/-- C8: the operations preserve the grid invariant. Construction yields
generation 0 and 0/1 cells; `make_step` keeps the dimensions, increments
the generation counter by exactly 1 and writes only 0/1 cells;
`populate_grid` keeps the dimensions, resets the generation counter to 0
and keeps the cells 0/1; a successful `randomize` keeps the dimensions,
resets the generation counter to 0 and writes only 0/1 cells. (Dimensions
are the `rows`/`cols` fields of the state, which carry the numpy array's
shape.) -/
theorem C8_invariants :
    (∀ (rows cols : Int) (s : GameOfLife), GameOfLife.init rows cols = Except.ok s →
      s.current_step = 0 ∧ ValidCells s) ∧
    (∀ s : GameOfLife, (s.make_step).rows = s.rows ∧ (s.make_step).cols = s.cols ∧
      (s.make_step).current_step = s.current_step + 1 ∧ ValidCells s.make_step) ∧
    (∀ (s : GameOfLife) (coords : List (Int × Int)),
      (s.populate_grid coords).rows = s.rows ∧ (s.populate_grid coords).cols = s.cols ∧
      (s.populate_grid coords).current_step = 0 ∧
      (ValidCells s → ValidCells (s.populate_grid coords))) ∧
    (∀ (s : GameOfLife) (d : ℚ) (rng : Nat → Nat → Bool) (t : GameOfLife),
      s.randomize d rng = Except.ok t →
      t.rows = s.rows ∧ t.cols = s.cols ∧ t.current_step = 0 ∧ ValidCells t) := by
  refine ⟨?_, ?_, ?_, ?_⟩
  · intro rows cols s h
    unfold GameOfLife.init at h
    split_ifs at h
    injection h with h'
    subst h'
    exact ⟨rfl, fun _ _ _ _ => Or.inl rfl⟩
  · intro s
    refine ⟨rfl, rfl, rfl, ?_⟩
    intro r _ c _
    rw [make_step_cell]
    split_ifs <;> simp
  · intro s coords
    refine ⟨rfl, rfl, rfl, ?_⟩
    intro hv r hr c hc
    rw [populate_value]
    split_ifs with h
    · exact Or.inr rfl
    · exact hv r hr c hc
  · intro s d rng t h
    unfold GameOfLife.randomize at h
    split_ifs at h
    injection h with h'
    subst h'
    refine ⟨rfl, rfl, rfl, ?_⟩
    intro r _ c _
    dsimp only
    split_ifs <;> simp

/-- A concrete successful `randomize` call: density 0 with the constantly
false draw source on the 3×3 sample grid. -/
theorem randomize_zero_ok :
    sample33.randomize 0 (fun _ _ => false) =
      Except.ok ⟨3, 3, fun r c => if (fun _ _ => false) r c then 1 else 0, 0⟩ := by
  unfold GameOfLife.randomize
  rw [if_neg (by norm_num)]
  rfl

/-- Witness for C8: the invariant facts instantiated at concrete calls. -/
theorem C8_invariants_witness :
    ((⟨2, 2, fun _ _ => 0, 0⟩ : GameOfLife).current_step = 0 ∧
      ValidCells (⟨2, 2, fun _ _ => 0, 0⟩ : GameOfLife)) ∧
    ValidCells sample33.make_step ∧
    ValidCells (sample33.populate_grid [((1 : Int), (1 : Int))]) ∧
    ValidCells (⟨3, 3, fun r c => if (fun _ _ => false) r c then 1 else 0, 0⟩ : GameOfLife) :=
  ⟨C8_invariants.1 2 2 _ rfl,
   (C8_invariants.2.1 sample33).2.2.2,
   (C8_invariants.2.2.1 sample33 [((1 : Int), (1 : Int))]).2.2.2 (fun _ _ _ _ => Or.inl rfl),
   (C8_invariants.2.2.2 sample33 0 (fun _ _ => false) _ randomize_zero_ok).2.2.2⟩

/-- C9: the 5-cell glider placed on an otherwise-empty grid of dimensions
at least 6×6 and stepped exactly 4 times yields precisely the initial shape
translated by `(+1, +1)` — alive cells are exactly
`[(2,1),(3,2),(1,3),(2,3),(3,3)]` and no others. -/
theorem C9_glider_translation (rows cols : Nat) (hR : 6 ≤ rows) (hC : 6 ≤ cols) :
    ∀ r c : Nat,
      ((((GameOfLife.populate_grid ⟨rows, cols, fun _ _ => 0, 0⟩
          gliderCoords).make_step).make_step).make_step).make_step.life_grid r c = 1 ↔
        (r, c) ∈ gliderP4 := by
  have h0 : (GameOfLife.populate_grid ⟨rows, cols, fun _ _ => 0, 0⟩ gliderCoords).life_grid
      = patAt gliderP0 := glider_initial rows cols hR hC
  have h1 : ∀ r c, ((GameOfLife.populate_grid ⟨rows, cols, fun _ _ => 0, 0⟩
      gliderCoords).make_step).life_grid r c = patAt gliderP1 r c :=
    glider_step_01 rows cols hR hC _ rfl rfl h0
  have h1f : ((GameOfLife.populate_grid ⟨rows, cols, fun _ _ => 0, 0⟩
      gliderCoords).make_step).life_grid = patAt gliderP1 :=
    funext fun r => funext fun c => h1 r c
  have h2 := glider_step_12 rows cols hR hC _ rfl rfl h1f
  have h2f : (((GameOfLife.populate_grid ⟨rows, cols, fun _ _ => 0, 0⟩
      gliderCoords).make_step).make_step).life_grid = patAt gliderP2 :=
    funext fun r => funext fun c => h2 r c
  have h3 := glider_step_23 rows cols hR hC _ rfl rfl h2f
  have h3f : ((((GameOfLife.populate_grid ⟨rows, cols, fun _ _ => 0, 0⟩
      gliderCoords).make_step).make_step).make_step).life_grid = patAt gliderP3 :=
    funext fun r => funext fun c => h3 r c
  have h4 := glider_step_34 rows cols hR hC _ rfl rfl h3f
  intro r c
  rw [h4 r c]
  unfold patAt
  split_ifs with hmem
  · simp [hmem]
  · simp [hmem]

/-- Witness for C9 on the exact 6×6 grid, read at cell (2, 1). -/
theorem C9_glider_translation_witness :
    6 ≤ 6 ∧
    (((((GameOfLife.populate_grid ⟨6, 6, fun _ _ => 0, 0⟩
        gliderCoords).make_step).make_step).make_step).make_step.life_grid 2 1 = 1 ↔
      (2, 1) ∈ gliderP4) :=
  ⟨by decide, C9_glider_translation 6 6 (by decide) (by decide) 2 1⟩

/-- C10: `populate_grid` is insensitive to order and multiplicity of its
coordinate list — a permuted list, a duplicated list, and a repeated call
all produce the identical state (cells and generation counter). -/
theorem C10_populate_order_insensitive (s : GameOfLife) (l1 l2 : List (Int × Int))
    (hperm : l1.Perm l2) :
    s.populate_grid l1 = s.populate_grid l2 ∧
    s.populate_grid (l1 ++ l1) = s.populate_grid l1 ∧
    (s.populate_grid l1).populate_grid l1 = s.populate_grid l1 := by
  refine ⟨?_, ?_, ?_⟩
  · apply GameOfLife.ext
    · rfl
    · rfl
    · funext r c
      rw [populate_value, populate_value]
      refine if_congr ?_ rfl rfl
      constructor
      · rintro ⟨p, hp, hD⟩
        exact ⟨p, hperm.mem_iff.mp hp, hD⟩
      · rintro ⟨p, hp, hD⟩
        exact ⟨p, hperm.mem_iff.mpr hp, hD⟩
    · rfl
  · apply GameOfLife.ext
    · rfl
    · rfl
    · funext r c
      rw [populate_value, populate_value]
      refine if_congr ?_ rfl rfl
      constructor
      · rintro ⟨p, hp, hD⟩
        rcases List.mem_append.mp hp with hp' | hp' <;> exact ⟨p, hp', hD⟩
      · rintro ⟨p, hp, hD⟩
        exact ⟨p, List.mem_append.mpr (Or.inl hp), hD⟩
    · rfl
  · apply GameOfLife.ext
    · rfl
    · rfl
    · funext r c
      rw [populate_value (s.populate_grid l1) l1 r c, populate_rows, populate_cols,
        populate_value s l1 r c]
      by_cases hc : ∃ p ∈ l1,
          (0 ≤ p.1 ∧ p.1 < (s.rows : Int) ∧ 0 ≤ p.2 ∧ p.2 < (s.cols : Int)) ∧
          r = p.1.toNat ∧ c = p.2.toNat
      · simp [hc]
      · simp [hc]
    · rfl

/-- Witness for C10 at a concrete permutation of a two-pair list. -/
theorem C10_populate_order_insensitive_witness :
    ([((0 : Int), (0 : Int)), (1, 2)] : List (Int × Int)).Perm [(1, 2), (0, 0)] ∧
    sample33.populate_grid [((0 : Int), (0 : Int)), (1, 2)] =
      sample33.populate_grid [(1, 2), (0, 0)] :=
  ⟨by decide, (C10_populate_order_insensitive sample33 _ _ (by decide)).1⟩
